import Mathlib

/-!
Verification of the adaptive spatio-directional guiding structure (SD-tree)
of a practical path-guiding renderer, shallowly embedded from
`renderer/kernel/lighting/sdtree.cpp`,
`renderer/kernel/lighting/gpt/pathguidedsampler.cpp`,
`renderer/kernel/lighting/gpt/gptpasscallback.cpp` and
`renderer/kernel/rendering/variancetrackingshadingresultframebuffer.cpp`.

32-bit floats are modelled as exact rationals (`ℚ`): every arithmetic
operation of the source is translated literally, and properties stated
"within tolerance" in the specification become exact equalities of the
idealised arithmetic.  Directions on the unit sphere are represented by
their cylindrical square coordinates `((cos θ + 1)/2, φ/(2π)) ∈ [0,1)²`:
`cartesian_to_cylindrical` and `cylindrical_to_cartesian` are mutually
inverse area-preserving bijections (the source asserts the round-trip is
the identity), so both are modelled as the identity on the square.
-/

namespace SDTree

/-- Constant from sdtree.cpp: spatial subdivision threshold. -/
def SpatialSubdivisionThreshold : ℕ := 4000

/-- Constant from sdtree.cpp: D-tree subdivision threshold (0.01f). -/
def DTreeThreshold : ℚ := 1/100

/-- Constant from sdtree.cpp: maximal D-tree depth. -/
def DTreeMaxDepth : ℕ := 20

/-- Constant from sdtree.cpp: glossy area fraction (0.1f). -/
def DTreeGlossyAreaFraction : ℚ := 1/10

/-- Constant from sdtree.cpp: glossy energy threshold (0.7f). -/
def DTreeGlossyEnergyThreshold : ℚ := 7/10

/-- Adam constant β₁ from sdtree.cpp. -/
def Beta1 : ℚ := 9/10

/-- Adam constant β₂ from sdtree.cpp. -/
def Beta2 : ℚ := 999/1000

/-- Adam constant ε from sdtree.cpp (1e-8f). -/
def OptimizationEpsilon : ℚ := 1/100000000

/-- Adam regularisation constant from sdtree.cpp (0.01f). -/
def Regularization : ℚ := 1/100

/-- The float constant `RcpFourPi<float>` (1/(4π)), modelled as a fixed
positive rational approximation; no claim depends on its value beyond the
fact that it is one fixed constant used by both `sample` and `pdf`. -/
def RcpFourPi : ℚ := 7957747/100000000

/-- `std::nextafter(1.0f, 0.0f)`: the largest float below one, `1 - 2⁻²⁴`. -/
def OneUlpBelowOne : ℚ := 1 - 1/2^24

/-- The clamp applied at the head of `QuadTreeNode::sample_recursive`:
sample dimensions at or above 1 are pulled to just below 1. -/
def clampBelowOne (x : ℚ) : ℚ := if 1 ≤ x then OneUlpBelowOne else x

/--
A node of the directional quad tree (`QuadTreeNode` in sdtree.cpp).
A node holds `m_current_iter_radiance_sum` (the atomic accumulator) and
`m_previous_iter_radiance_sum` (the frozen sum used for sampling); the
`m_is_leaf` flag together with the four owned children is modelled by the
two constructors.  Child order follows the member declaration order
upper-left, upper-right, lower-right, lower-left.
-/
inductive QuadTreeNode where
  | leaf (currentSum previousSum : ℚ)
  | node (currentSum previousSum : ℚ)
      (upperLeft upperRight lowerRight lowerLeft : QuadTreeNode)
deriving Repr, DecidableEq

/-- `QuadTreeNode::radiance_sum`: the frozen previous-iteration sum. -/
def QuadTreeNode.radianceSum : QuadTreeNode → ℚ
  | .leaf _ p => p
  | .node _ p _ _ _ _ => p

/-- The in-progress accumulator of a node. -/
def QuadTreeNode.currentSum : QuadTreeNode → ℚ
  | .leaf c _ => c
  | .node c _ _ _ _ _ => c

/-- `QuadTreeNode::pdf` (Algorithm 2): symmetric descent choosing the child
containing the query direction (via `choose_node`, which renormalises the
coordinate into the chosen quadrant), multiplying the accumulated factor by
`4 · child_sum / node_sum`; a leaf contributes `1/(4π)`. -/
def QuadTreeNode.pdf : QuadTreeNode → ℚ × ℚ → ℚ
  | .leaf _ _, _ => RcpFourPi
  | .node _ p ul ur lr ll, d =>
    if d.1 < 1/2 then
      if d.2 < 1/2 then
        4 * ul.radianceSum / p * ul.pdf (2 * d.1, 2 * d.2)
      else
        4 * ll.radianceSum / p * ll.pdf (2 * d.1, 2 * d.2 - 1)
    else
      if d.2 < 1/2 then
        4 * ur.radianceSum / p * ur.pdf (2 * d.1 - 1, 2 * d.2)
      else
        4 * lr.radianceSum / p * lr.pdf (2 * d.1 - 1, 2 * d.2 - 1)

/-- `QuadTreeNode::sample_recursive` (Algorithm 1).  Each sample dimension
is clamped below one, then a child is chosen with probability proportional
to its previous-iteration sum (first by x, then by y within the chosen
half); the sample coordinate is renormalised into the chosen quadrant, the
accumulated pdf is multiplied by `4 · child_sum / node_sum`, and the leaf
contributes the factor `1/(4π)`.  The in-out `pdf` accumulator of the
source (initialised to 1 by `QuadTreeNode::sample`) is returned as the
second component: the recursion of the source goes through the `sample`
wrapper, which re-initialises the accumulator to 1, and each level
multiplies its own factor only after its child returns, so the final
value is the product of the per-level factors that this model returns. -/
def QuadTreeNode.sampleRec : QuadTreeNode → ℚ × ℚ → (ℚ × ℚ) × ℚ
  | .leaf _ _, s => ((clampBelowOne s.1, clampBelowOne s.2), RcpFourPi)
  | .node _ p ul ur lr ll, s =>
    let sx := clampBelowOne s.1
    let sy := clampBelowOne s.2
    let upperLeft := ul.radianceSum
    let upperRight := ur.radianceSum
    let lowerRight := lr.radianceSum
    let lowerLeft := ll.radianceSum
    let sumLeftHalf := upperLeft + lowerLeft
    let sumRightHalf := upperRight + lowerRight
    let fx := sumLeftHalf / p
    if sx < fx then
      let fy := upperLeft / sumLeftHalf
      if sy < fy then
        let r := ul.sampleRec (sx / fx, sy / fy)
        ((r.1.1 / 2, r.1.2 / 2), r.2 * (4 * upperLeft / p))
      else
        let r := ll.sampleRec (sx / fx, (sy - fy) / (1 - fy))
        ((r.1.1 / 2, 1/2 + r.1.2 / 2), r.2 * (4 * lowerLeft / p))
    else
      let fy := upperRight / sumRightHalf
      if sy < fy then
        let r := ur.sampleRec ((sx - fx) / (1 - fx), sy / fy)
        ((1/2 + r.1.1 / 2, r.1.2 / 2), r.2 * (4 * upperRight / p))
      else
        let r := lr.sampleRec ((sx - fx) / (1 - fx), (sy - fy) / (1 - fy))
        ((1/2 + r.1.1 / 2, 1/2 + r.1.2 / 2), r.2 * (4 * lowerRight / p))

/-- `QuadTreeNode::sample`: initialises the pdf accumulator to one and
invokes the recursive sampling routine. -/
def QuadTreeNode.sample (t : QuadTreeNode) (s : ℚ × ℚ) : (ℚ × ℚ) × ℚ :=
  t.sampleRec s

/-- `QuadTreeNode::restructure` (Algorithm 4).  `depth` is the node depth
counted from 1 at the root (the default argument of the declaration in
sdtree.h; consistent with `max_depth`, which counts a sole leaf as depth 1).
If `previous_sum / total > τ` and `depth < DTreeMaxDepth`, a leaf is split
into four fresh leaves each carrying one quarter of the parent's
previous-iteration sum (the `QuadTreeNode(false, quarter_sum)` constructor
initialises both sums to `quarter_sum`), and the children are restructured
recursively at `depth + 1`; otherwise an interior node collapses back into
a leaf.  In all cases the node's in-progress accumulator is reset to 0.
The optional sorted-energy-ratio list of the source only collects
statistics for the scattering-mode classification and never alters the
tree; it is omitted here. -/
def QuadTreeNode.restructure (t : QuadTreeNode) (total τ : ℚ) (depth : ℕ) :
    QuadTreeNode :=
  if h : τ < t.radianceSum / total ∧ depth < DTreeMaxDepth then
    match t with
    | .leaf _ p =>
      let quarterSum := (1/4) * p
      .node 0 p
        ((QuadTreeNode.leaf quarterSum quarterSum).restructure total τ (depth + 1))
        ((QuadTreeNode.leaf quarterSum quarterSum).restructure total τ (depth + 1))
        ((QuadTreeNode.leaf quarterSum quarterSum).restructure total τ (depth + 1))
        ((QuadTreeNode.leaf quarterSum quarterSum).restructure total τ (depth + 1))
    | .node _ p ul ur lr ll =>
      .node 0 p
        (ul.restructure total τ (depth + 1))
        (ur.restructure total τ (depth + 1))
        (lr.restructure total τ (depth + 1))
        (ll.restructure total τ (depth + 1))
  else
    .leaf 0 t.radianceSum
termination_by DTreeMaxDepth - depth
decreasing_by all_goals (simp only [DTreeMaxDepth] at *; omega)

/-- The subdivision criterion of the specification, evaluated on every
leaf: each leaf at node depth `d` keeps at most a `τ` fraction of `total`,
or sits at the maximal D-tree depth. -/
def QuadTreeNode.leavesOk (total τ : ℚ) : QuadTreeNode → ℕ → Bool
  | .leaf _ p, d => decide (p / total ≤ τ) || decide (d = DTreeMaxDepth)
  | .node _ _ ul ur lr ll, d =>
    ul.leavesOk total τ (d + 1) && ur.leavesOk total τ (d + 1) &&
    lr.leavesOk total τ (d + 1) && ll.leavesOk total τ (d + 1)

theorem restructure_leavesOk (total τ : ℚ) (d : ℕ) (t : QuadTreeNode)
    (hd : d ≤ DTreeMaxDepth) :
    (t.restructure total τ d).leavesOk total τ d = true := by
  rw [QuadTreeNode.restructure]
  split
  · rename_i h
    have hd1 : d + 1 ≤ DTreeMaxDepth := h.2
    match t with
    | .leaf c p =>
      simp only [QuadTreeNode.leavesOk, Bool.and_eq_true]
      exact ⟨⟨⟨restructure_leavesOk total τ (d+1) _ hd1,
        restructure_leavesOk total τ (d+1) _ hd1⟩,
        restructure_leavesOk total τ (d+1) _ hd1⟩,
        restructure_leavesOk total τ (d+1) _ hd1⟩
    | .node c p ul ur lr ll =>
      simp only [QuadTreeNode.leavesOk, Bool.and_eq_true]
      exact ⟨⟨⟨restructure_leavesOk total τ (d+1) ul hd1,
        restructure_leavesOk total τ (d+1) ur hd1⟩,
        restructure_leavesOk total τ (d+1) lr hd1⟩,
        restructure_leavesOk total τ (d+1) ll hd1⟩
  · rename_i h
    rw [not_and_or, not_lt, not_lt] at h
    simp only [QuadTreeNode.leavesOk, Bool.or_eq_true, decide_eq_true_eq]
    rcases h with h | h
    · exact Or.inl h
    · exact Or.inr (le_antisymm hd h)
termination_by DTreeMaxDepth - d
decreasing_by all_goals (simp only [DTreeMaxDepth] at *; omega)

theorem clampBelowOne_of_lt {x : ℚ} (h : x < 1) : clampBelowOne x = x := by
  simp [clampBelowOne, not_le.mpr h]

theorem renorm_lt {s f : ℚ} (h0 : 0 ≤ s) (h : s < f) :
    0 ≤ s / f ∧ s / f < 1 := by
  have hf : 0 < f := lt_of_le_of_lt h0 h
  exact ⟨div_nonneg h0 hf.le, (div_lt_one hf).mpr h⟩

theorem renorm_ge {s f : ℚ} (h0 : 0 ≤ s) (h1 : s < 1) (h : ¬ s < f) :
    0 ≤ (s - f) / (1 - f) ∧ (s - f) / (1 - f) < 1 := by
  push_neg at h
  have hf : 0 < 1 - f := by linarith
  refine ⟨div_nonneg (by linarith) hf.le, ?_⟩
  rw [div_lt_one hf]
  linarith
/-- Pdf descent step into the upper-left quadrant. -/
theorem pdf_step_ul {c p : ℚ} {ul ur lr ll : QuadTreeNode} (q : (ℚ × ℚ) × ℚ)
    (r1 : 0 ≤ q.1.1) (r2 : q.1.1 < 1) (r3 : 0 ≤ q.1.2) (r4 : q.1.2 < 1)
    (r5 : ul.pdf q.1 = q.2) :
    0 ≤ q.1.1 / 2 ∧ q.1.1 / 2 < 1 ∧ 0 ≤ q.1.2 / 2 ∧ q.1.2 / 2 < 1 ∧
    (QuadTreeNode.node c p ul ur lr ll).pdf (q.1.1 / 2, q.1.2 / 2) =
      q.2 * (4 * ul.radianceSum / p) := by
  refine ⟨by linarith, by linarith, by linarith, by linarith, ?_⟩
  show (if (q.1.1 / 2 : ℚ) < 1/2 then
      if (q.1.2 / 2 : ℚ) < 1/2 then
        4 * ul.radianceSum / p * ul.pdf (2 * (q.1.1 / 2), 2 * (q.1.2 / 2))
      else 4 * ll.radianceSum / p * ll.pdf (2 * (q.1.1 / 2), 2 * (q.1.2 / 2) - 1)
    else
      if (q.1.2 / 2 : ℚ) < 1/2 then
        4 * ur.radianceSum / p * ur.pdf (2 * (q.1.1 / 2) - 1, 2 * (q.1.2 / 2))
      else 4 * lr.radianceSum / p * lr.pdf (2 * (q.1.1 / 2) - 1, 2 * (q.1.2 / 2) - 1)) =
    q.2 * (4 * ul.radianceSum / p)
  rw [if_pos (by linarith), if_pos (by linarith)]
  have e1 : 2 * (q.1.1 / 2) = q.1.1 := by ring
  have e2 : 2 * (q.1.2 / 2) = q.1.2 := by ring
  rw [e1, e2, r5]
  ring

/-- Pdf descent step into the lower-left quadrant. -/
theorem pdf_step_ll {c p : ℚ} {ul ur lr ll : QuadTreeNode} (q : (ℚ × ℚ) × ℚ)
    (r1 : 0 ≤ q.1.1) (r2 : q.1.1 < 1) (r3 : 0 ≤ q.1.2) (r4 : q.1.2 < 1)
    (r5 : ll.pdf q.1 = q.2) :
    0 ≤ q.1.1 / 2 ∧ q.1.1 / 2 < 1 ∧ 0 ≤ 1/2 + q.1.2 / 2 ∧ 1/2 + q.1.2 / 2 < 1 ∧
    (QuadTreeNode.node c p ul ur lr ll).pdf (q.1.1 / 2, 1/2 + q.1.2 / 2) =
      q.2 * (4 * ll.radianceSum / p) := by
  refine ⟨by linarith, by linarith, by linarith, by linarith, ?_⟩
  show (if (q.1.1 / 2 : ℚ) < 1/2 then
      if (1/2 + q.1.2 / 2 : ℚ) < 1/2 then
        4 * ul.radianceSum / p * ul.pdf (2 * (q.1.1 / 2), 2 * (1/2 + q.1.2 / 2))
      else 4 * ll.radianceSum / p * ll.pdf (2 * (q.1.1 / 2), 2 * (1/2 + q.1.2 / 2) - 1)
    else
      if (1/2 + q.1.2 / 2 : ℚ) < 1/2 then
        4 * ur.radianceSum / p * ur.pdf (2 * (q.1.1 / 2) - 1, 2 * (1/2 + q.1.2 / 2))
      else 4 * lr.radianceSum / p *
        lr.pdf (2 * (q.1.1 / 2) - 1, 2 * (1/2 + q.1.2 / 2) - 1)) =
    q.2 * (4 * ll.radianceSum / p)
  rw [if_pos (by linarith), if_neg (by linarith)]
  have e1 : 2 * (q.1.1 / 2) = q.1.1 := by ring
  have e2 : 2 * (1/2 + q.1.2 / 2) - 1 = q.1.2 := by ring
  rw [e1, e2, r5]
  ring

/-- Pdf descent step into the upper-right quadrant. -/
theorem pdf_step_ur {c p : ℚ} {ul ur lr ll : QuadTreeNode} (q : (ℚ × ℚ) × ℚ)
    (r1 : 0 ≤ q.1.1) (r2 : q.1.1 < 1) (r3 : 0 ≤ q.1.2) (r4 : q.1.2 < 1)
    (r5 : ur.pdf q.1 = q.2) :
    0 ≤ 1/2 + q.1.1 / 2 ∧ 1/2 + q.1.1 / 2 < 1 ∧ 0 ≤ q.1.2 / 2 ∧ q.1.2 / 2 < 1 ∧
    (QuadTreeNode.node c p ul ur lr ll).pdf (1/2 + q.1.1 / 2, q.1.2 / 2) =
      q.2 * (4 * ur.radianceSum / p) := by
  refine ⟨by linarith, by linarith, by linarith, by linarith, ?_⟩
  show (if (1/2 + q.1.1 / 2 : ℚ) < 1/2 then
      if (q.1.2 / 2 : ℚ) < 1/2 then
        4 * ul.radianceSum / p * ul.pdf (2 * (1/2 + q.1.1 / 2), 2 * (q.1.2 / 2))
      else 4 * ll.radianceSum / p * ll.pdf (2 * (1/2 + q.1.1 / 2), 2 * (q.1.2 / 2) - 1)
    else
      if (q.1.2 / 2 : ℚ) < 1/2 then
        4 * ur.radianceSum / p * ur.pdf (2 * (1/2 + q.1.1 / 2) - 1, 2 * (q.1.2 / 2))
      else 4 * lr.radianceSum / p *
        lr.pdf (2 * (1/2 + q.1.1 / 2) - 1, 2 * (q.1.2 / 2) - 1)) =
    q.2 * (4 * ur.radianceSum / p)
  rw [if_neg (by linarith), if_pos (by linarith)]
  have e1 : 2 * (1/2 + q.1.1 / 2) - 1 = q.1.1 := by ring
  have e2 : 2 * (q.1.2 / 2) = q.1.2 := by ring
  rw [e1, e2, r5]
  ring

/-- Pdf descent step into the lower-right quadrant. -/
theorem pdf_step_lr {c p : ℚ} {ul ur lr ll : QuadTreeNode} (q : (ℚ × ℚ) × ℚ)
    (r1 : 0 ≤ q.1.1) (r2 : q.1.1 < 1) (r3 : 0 ≤ q.1.2) (r4 : q.1.2 < 1)
    (r5 : lr.pdf q.1 = q.2) :
    0 ≤ 1/2 + q.1.1 / 2 ∧ 1/2 + q.1.1 / 2 < 1 ∧
    0 ≤ 1/2 + q.1.2 / 2 ∧ 1/2 + q.1.2 / 2 < 1 ∧
    (QuadTreeNode.node c p ul ur lr ll).pdf (1/2 + q.1.1 / 2, 1/2 + q.1.2 / 2) =
      q.2 * (4 * lr.radianceSum / p) := by
  refine ⟨by linarith, by linarith, by linarith, by linarith, ?_⟩
  show (if (1/2 + q.1.1 / 2 : ℚ) < 1/2 then
      if (1/2 + q.1.2 / 2 : ℚ) < 1/2 then
        4 * ul.radianceSum / p * ul.pdf (2 * (1/2 + q.1.1 / 2), 2 * (1/2 + q.1.2 / 2))
      else 4 * ll.radianceSum / p *
        ll.pdf (2 * (1/2 + q.1.1 / 2), 2 * (1/2 + q.1.2 / 2) - 1)
    else
      if (1/2 + q.1.2 / 2 : ℚ) < 1/2 then
        4 * ur.radianceSum / p * ur.pdf (2 * (1/2 + q.1.1 / 2) - 1, 2 * (1/2 + q.1.2 / 2))
      else 4 * lr.radianceSum / p *
        lr.pdf (2 * (1/2 + q.1.1 / 2) - 1, 2 * (1/2 + q.1.2 / 2) - 1)) =
    q.2 * (4 * lr.radianceSum / p)
  rw [if_neg (by linarith), if_neg (by linarith)]
  have e1 : 2 * (1/2 + q.1.1 / 2) - 1 = q.1.1 := by ring
  have e2 : 2 * (1/2 + q.1.2 / 2) - 1 = q.1.2 := by ring
  rw [e1, e2, r5]
  ring

/-- Core sample/pdf consistency: for a uniform input in `[0,1)²`, the
sampling descent emits a direction in `[0,1)²` and the symmetric pdf
descent over the same tree recomputes exactly the accumulated probability
(the clamps never fire in exact arithmetic, and both routines multiply
the same factors `4·child_sum/node_sum`, the leaf contributing `1/(4π)`). -/
theorem sampleRec_consistent (t : QuadTreeNode) :
    ∀ s : ℚ × ℚ, 0 ≤ s.1 → s.1 < 1 → 0 ≤ s.2 → s.2 < 1 →
      0 ≤ (t.sampleRec s).1.1 ∧ (t.sampleRec s).1.1 < 1 ∧
      0 ≤ (t.sampleRec s).1.2 ∧ (t.sampleRec s).1.2 < 1 ∧
      t.pdf (t.sampleRec s).1 = (t.sampleRec s).2 := by
  induction t with
  | leaf c p =>
    intro s h1 h2 h3 h4
    simp only [QuadTreeNode.sampleRec, QuadTreeNode.pdf,
      clampBelowOne_of_lt h2, clampBelowOne_of_lt h4]
    exact ⟨h1, h2, h3, h4, trivial⟩
  | node c p ul ur lr ll ihul ihur ihlr ihll =>
    intro s h1 h2 h3 h4
    simp only [QuadTreeNode.sampleRec, clampBelowOne_of_lt h2,
      clampBelowOne_of_lt h4]
    split_ifs with hx hy hy
    · obtain ⟨ha, hb⟩ := renorm_lt h1 hx
      obtain ⟨hc, hd⟩ := renorm_lt h3 hy
      obtain ⟨r1, r2, r3, r4, r5⟩ :=
        ihul (s.1 / ((ul.radianceSum + ll.radianceSum) / p),
          s.2 / (ul.radianceSum / (ul.radianceSum + ll.radianceSum))) ha hb hc hd
      exact pdf_step_ul _ r1 r2 r3 r4 r5
    · obtain ⟨ha, hb⟩ := renorm_lt h1 hx
      obtain ⟨hc, hd⟩ := renorm_ge h3 h4 hy
      obtain ⟨r1, r2, r3, r4, r5⟩ :=
        ihll (s.1 / ((ul.radianceSum + ll.radianceSum) / p),
          (s.2 - ul.radianceSum / (ul.radianceSum + ll.radianceSum)) /
            (1 - ul.radianceSum / (ul.radianceSum + ll.radianceSum))) ha hb hc hd
      exact pdf_step_ll _ r1 r2 r3 r4 r5
    · obtain ⟨ha, hb⟩ := renorm_ge h1 h2 hx
      obtain ⟨hc, hd⟩ := renorm_lt h3 hy
      obtain ⟨r1, r2, r3, r4, r5⟩ :=
        ihur ((s.1 - (ul.radianceSum + ll.radianceSum) / p) /
            (1 - (ul.radianceSum + ll.radianceSum) / p),
          s.2 / (ur.radianceSum / (ur.radianceSum + lr.radianceSum))) ha hb hc hd
      exact pdf_step_ur _ r1 r2 r3 r4 r5
    · obtain ⟨ha, hb⟩ := renorm_ge h1 h2 hx
      obtain ⟨hc, hd⟩ := renorm_ge h3 h4 hy
      obtain ⟨r1, r2, r3, r4, r5⟩ :=
        ihlr ((s.1 - (ul.radianceSum + ll.radianceSum) / p) /
            (1 - (ul.radianceSum + ll.radianceSum) / p),
          (s.2 - ur.radianceSum / (ur.radianceSum + lr.radianceSum)) /
            (1 - ur.radianceSum / (ur.radianceSum + lr.radianceSum))) ha hb hc hd
      exact pdf_step_lr _ r1 r2 r3 r4 r5

/-- Modelled from the spec: appleseed's `ScatteringMode` bit flags
(`None = 0`, `Diffuse = 1`, `Glossy = 2`, `Specular = 4`; the declaring
header is not under src/).  A D-tree's `m_scattering_mode` is one of these
tags and mask tests use its numeric value. -/
inductive ScatteringMode where
  | none
  | diffuse
  | glossy
  | specular
deriving Repr, DecidableEq

/-- The numeric bit value of a scattering mode. -/
def ScatteringMode.mask : ScatteringMode → ℕ
  | .none => 0
  | .diffuse => 1
  | .glossy => 2
  | .specular => 4

/-- `BSDFSamplingFractionMode` configuration enum (gptparameters.h). -/
inductive BSDFSamplingFractionMode where
  | learn
  | fixed
deriving Repr, DecidableEq

/-- `DirectionalFilter` configuration enum (gptparameters.h). -/
inductive DirectionalFilter where
  | nearest
  | box
deriving Repr, DecidableEq

/-- `SpatialFilter` configuration enum (gptparameters.h). -/
inductive SpatialFilter where
  | nearest
  | stochastic
  | box
deriving Repr, DecidableEq

/-- `GuidedBounceMode` configuration enum (gptparameters.h). -/
inductive GuidedBounceMode where
  | learn
  | strictlyDiffuse
  | strictlyGlossy
  | preferDiffuse
  | preferGlossy
deriving Repr, DecidableEq

/-- `GuidingMode` configuration enum (gptparameters.h). -/
inductive GuidingMode where
  | pathGuiding
  | productGuiding
  | combined
deriving Repr, DecidableEq

/-- `IterationProgression` configuration enum (gptparameters.h). -/
inductive IterationProgression where
  | automatic
  | combine
deriving Repr, DecidableEq

/-- The slice of `GPTParameters` read by the embedded functions. -/
structure GPTParameters where
  bsdfSamplingFractionMode : BSDFSamplingFractionMode
  fixedBsdfSamplingFraction : ℚ
  directionalFilter : DirectionalFilter
  spatialFilter : SpatialFilter
  guidedBounceMode : GuidedBounceMode
  guidingMode : GuidingMode
  iterationProgression : IterationProgression
  learningRate : ℚ
  samplesPerPass : ℕ
deriving Repr, DecidableEq

/-- Modelled from the spec: `std::sqrt` on 32-bit floats (not under src/),
realised as an executable rational approximation `√(num·den)/den`.  No
claim depends on its value; it only feeds the Adam `θ` update. -/
def sqrtQ (q : ℚ) : ℚ := (Nat.sqrt (q.num.toNat * q.den) : ℚ) / (q.den : ℚ)

/-- Modelled from the spec: `std::exp` on 32-bit floats (not under src/),
realised as a truncated Taylor series.  No claim depends on its value; it
only feeds the logistic sampling fraction. -/
def expQ (x : ℚ) : ℚ :=
  (List.range 16).foldl (fun acc k => acc + x ^ k / (Nat.factorial k : ℚ)) 0

/-- The `logistic` helper of sdtree.cpp: `1 / (1 + exp(-x))`. -/
def logistic (x : ℚ) : ℚ := 1 / (1 + expQ (-x))

/-- `clamp` from foundation/math/scalar.h: clamp a value to `[lo, hi]`. -/
def clampQ (x lo hi : ℚ) : ℚ := min (max x lo) hi

/-- The `DTreeRecord` value struct of sdtree.cpp. -/
structure DTreeRecord where
  direction : ℚ × ℚ
  radiance : ℚ
  wiPdf : ℚ
  bsdfPdf : ℚ
  dTreePdf : ℚ
  sampleWeight : ℚ
  product : ℚ
  isDelta : Bool
deriving Repr, DecidableEq

/-- The `DTree` state of sdtree.cpp: one quad-tree root plus the two
sample-weight accumulators, the scalar Adam optimiser state for the mixing
logit `θ`, the built flag and the scattering-mode tag.  The spin lock
(`m_atomic_flag`) protects the Adam fields and is not part of the
sequential state; the radiance proxy and mip maps are built by
`restructure` and are modelled separately. -/
structure DTree where
  params : GPTParameters
  root : QuadTreeNode
  currentSampleWeight : ℚ
  previousSampleWeight : ℚ
  optimizationStepCount : ℕ
  firstMoment : ℚ
  secondMoment : ℚ
  theta : ℚ
  isBuilt : Bool
  scatteringMode : ScatteringMode
deriving Repr, DecidableEq

/-- `DTree::bsdf_sampling_fraction`: the logistic of `θ` in Learn mode,
the fixed configured fraction otherwise. -/
def DTree.bsdfSamplingFraction (t : DTree) : ℚ :=
  if t.params.bsdfSamplingFractionMode = .learn then logistic t.theta
  else t.params.fixedBsdfSamplingFraction

/-- `DTree::adam_step`: one debiased Adam update of `θ`, clamped to
`[-20, 20]`. -/
def DTree.adamStep (t : DTree) (gradient : ℚ) : DTree :=
  let stepCount := t.optimizationStepCount + 1
  let debiasedLearningRate := t.params.learningRate *
    sqrtQ (1 - Beta2 ^ stepCount) / (1 - Beta1 ^ stepCount)
  let firstMoment := Beta1 * t.firstMoment + (1 - Beta1) * gradient
  let secondMoment := Beta2 * t.secondMoment + (1 - Beta2) * gradient * gradient
  let theta := t.theta - debiasedLearningRate * firstMoment /
    (sqrtQ secondMoment + OptimizationEpsilon)
  { t with
    optimizationStepCount := stepCount
    firstMoment := firstMoment
    secondMoment := secondMoment
    theta := clampQ theta (-20) 20 }

/-- `DTree::optimization_step`: the gradient of the mixture loss with L2
regularisation, fed into one Adam step (the spin lock around it is a
no-op sequentially). -/
def DTree.optimizationStep (t : DTree) (r : DTreeRecord) : DTree :=
  let samplingFraction := t.bsdfSamplingFraction
  let combinedPdf := samplingFraction * r.bsdfPdf +
    (1 - samplingFraction) * r.dTreePdf
  let dSamplingFraction := -r.product * (r.bsdfPdf - r.dTreePdf) /
    (r.wiPdf * combinedPdf)
  let dTheta := dSamplingFraction * samplingFraction * (1 - samplingFraction)
  let regGradient := t.theta * Regularization
  let gradient := (dTheta + regGradient) * r.sampleWeight
  t.adamStep gradient

/-- `QuadTreeNode::add_radiance` (direction overload, Nearest filter):
descend along `choose_node` and atomically add the radiance to the leaf's
in-progress accumulator. -/
def QuadTreeNode.addRadiance : QuadTreeNode → ℚ × ℚ → ℚ → QuadTreeNode
  | .leaf c p, _, radiance => .leaf (c + radiance) p
  | .node c p ul ur lr ll, d, radiance =>
    if d.1 < 1/2 then
      if d.2 < 1/2 then
        .node c p (ul.addRadiance (2 * d.1, 2 * d.2) radiance) ur lr ll
      else
        .node c p ul ur lr (ll.addRadiance (2 * d.1, 2 * d.2 - 1) radiance)
    else
      if d.2 < 1/2 then
        .node c p ul (ur.addRadiance (2 * d.1 - 1, 2 * d.2) radiance) lr ll
      else
        .node c p ul ur (lr.addRadiance (2 * d.1 - 1, 2 * d.2 - 1) radiance) ll

/-- An axis-aligned 2-D box (`AABB2f`). -/
structure AABB2 where
  lo : ℚ × ℚ
  hi : ℚ × ℚ
deriving Repr, DecidableEq

/-- `AABB2f::intersect`. -/
def AABB2.intersect (a b : AABB2) : AABB2 :=
  ⟨(max a.lo.1 b.lo.1, max a.lo.2 b.lo.2), (min a.hi.1 b.hi.1, min a.hi.2 b.hi.2)⟩

/-- `AABB2f::is_valid`: min ≤ max componentwise. -/
def AABB2.isValid (a : AABB2) : Bool :=
  decide (a.lo.1 ≤ a.hi.1) && decide (a.lo.2 ≤ a.hi.2)

/-- `AABB2f::volume` (the area of the box). -/
def AABB2.volume (a : AABB2) : ℚ :=
  (a.hi.1 - a.lo.1) * (a.hi.2 - a.lo.2)

/-- `QuadTreeNode::add_radiance` (splat overload, Box filter): clip the
splat box against the node box, skip empty intersections, add
`radiance · intersection_area` at leaves, and recurse into the four child
boxes (the source translates the lower-right and lower-left child boxes by
`0.5 · node_size.x` in y, exactly as written). -/
def QuadTreeNode.addRadianceBox :
    QuadTreeNode → AABB2 → AABB2 → ℚ → QuadTreeNode
  | t, splatAabb, nodeAabb, radiance =>
    let intersectionAabb := splatAabb.intersect nodeAabb
    if ¬ intersectionAabb.isValid then t
    else if intersectionAabb.volume ≤ 0 then t
    else
      match t with
      | .leaf c p => .leaf (c + radiance * intersectionAabb.volume) p
      | .node c p ul ur lr ll =>
        let nodeSize := (nodeAabb.hi.1 - nodeAabb.lo.1, nodeAabb.hi.2 - nodeAabb.lo.2)
        let ulAabb : AABB2 := ⟨nodeAabb.lo,
          (nodeAabb.lo.1 + (1/2) * nodeSize.1, nodeAabb.lo.2 + (1/2) * nodeSize.2)⟩
        let urAabb : AABB2 := ⟨(ulAabb.lo.1 + (1/2) * nodeSize.1, ulAabb.lo.2),
          (ulAabb.hi.1 + (1/2) * nodeSize.1, ulAabb.hi.2)⟩
        let lrAabb : AABB2 := ⟨(urAabb.lo.1, urAabb.lo.2 + (1/2) * nodeSize.1),
          (urAabb.hi.1, urAabb.hi.2 + (1/2) * nodeSize.1)⟩
        let llAabb : AABB2 := ⟨(lrAabb.lo.1 - (1/2) * nodeSize.1, lrAabb.lo.2),
          (lrAabb.hi.1 - (1/2) * nodeSize.1, lrAabb.hi.2)⟩
        .node c p
          (ul.addRadianceBox splatAabb ulAabb radiance)
          (ur.addRadianceBox splatAabb urAabb radiance)
          (lr.addRadianceBox splatAabb lrAabb radiance)
          (ll.addRadianceBox splatAabb llAabb radiance)

/-- `QuadTreeNode::depth(direction)`: length of the `choose_node` descent,
counting the root as 1. -/
def QuadTreeNode.depthAt : QuadTreeNode → ℚ × ℚ → ℕ
  | .leaf _ _, _ => 1
  | .node _ _ ul ur lr ll, d =>
    if d.1 < 1/2 then
      if d.2 < 1/2 then 1 + ul.depthAt (2 * d.1, 2 * d.2)
      else 1 + ll.depthAt (2 * d.1, 2 * d.2 - 1)
    else
      if d.2 < 1/2 then 1 + ur.depthAt (2 * d.1 - 1, 2 * d.2)
      else 1 + lr.depthAt (2 * d.1 - 1, 2 * d.2 - 1)

/-- `cartesian_to_cylindrical` composed with its inverse is the identity on
the square; directions are carried in cylindrical square coordinates, so
the conversion is modelled as the identity. -/
def cartesianToCylindrical (d : ℚ × ℚ) : ℚ × ℚ := d

/-- See `cartesianToCylindrical`. -/
def cylindricalToCartesian (d : ℚ × ℚ) : ℚ × ℚ := d

/-- `DTree::record`: first the optional Adam optimisation step (taken only
in Learn mode, on a built tree, for records with positive product); then
delta records and records with non-positive `wi_pdf` are dropped; the
sample weight accumulates and the weighted radiance is splatted into the
quad tree through the configured directional filter. -/
def DTree.record (t : DTree) (r : DTreeRecord) : DTree :=
  let t₀ := if t.params.bsdfSamplingFractionMode = .learn ∧ t.isBuilt = true ∧
      0 < r.product then t.optimizationStep r else t
  if r.isDelta = true ∨ r.wiPdf ≤ 0 then t₀
  else
    let t₁ := { t₀ with currentSampleWeight := t₀.currentSampleWeight + r.sampleWeight }
    let radiance := r.radiance / r.wiPdf * r.sampleWeight
    let direction := cartesianToCylindrical r.direction
    match t.params.directionalFilter with
    | .nearest => { t₁ with root := t₁.root.addRadiance direction radiance }
    | .box =>
      let leafDepth := t₁.root.depthAt direction
      let leafSize : ℚ := (1/4) ^ (leafDepth - 1)
      let nodeAabb : AABB2 := ⟨(0, 0), (1, 1)⟩
      let splatAabb : AABB2 :=
        ⟨(direction.1 - (1/2) * leafSize, direction.2 - (1/2) * leafSize),
         (direction.1 + (1/2) * leafSize, direction.2 + (1/2) * leafSize)⟩
      if ¬ splatAabb.isValid then t₁
      else { t₁ with
        root := t₁.root.addRadianceBox splatAabb nodeAabb (radiance / splatAabb.volume) }

/-- The `DTreeSample` out-structure of `DTree::sample`.  The source leaves
`direction` unset on the scattering-mode early return; the model writes
`(0, 0)` there, and no claim reads it. -/
structure DTreeSample where
  direction : ℚ × ℚ
  pdf : ℚ
  scatteringMode : ScatteringMode
deriving Repr, DecidableEq

/-- Modelled from the spec: `sample_sphere_uniform` of
foundation/math/sampling/mappings.h (not under src/) maps a uniform unit
square sample to a uniform sphere direction; in the area-preserving
cylindrical square coordinates it is the identity on the square. -/
def sampleSphereUniform (s : ℚ × ℚ) : ℚ × ℚ := s

/-- `SamplingContext::split_in_place(2,1)` followed by `next2`, modelled on
an explicit stream of uniforms: consume two values (or zeros once the
stream is exhausted, which no claim exercises). -/
def nextTwo (ctx : List ℚ) : (ℚ × ℚ) × List ℚ :=
  match ctx with
  | a :: b :: rest => ((a, b), rest)
  | _ => ((0, 0), [])

/-- `DTree::sample`: scattering modes incompatible with the tree's mode
are rejected up front with pdf 0 and no random numbers consumed; then two
uniforms are drawn; with no frozen history (`previous_sample_weight ≤ 0`
or empty root) the sample falls back to uniform sphere sampling at pdf
`1/(4π)` and mode Diffuse; otherwise the quad tree is sampled and the
direction converted back to a cartesian vector. -/
def DTree.sample (t : DTree) (ctx : List ℚ) (modes : ℕ) :
    DTreeSample × List ℚ :=
  if modes &&& t.scatteringMode.mask = 0 then
    (⟨(0, 0), 0, .none⟩, ctx)
  else
    let s := nextTwo ctx
    if t.previousSampleWeight ≤ 0 ∨ t.root.radianceSum ≤ 0 then
      (⟨sampleSphereUniform s.1, RcpFourPi, .diffuse⟩, s.2)
    else
      let r := t.root.sample s.1
      (⟨cylindricalToCartesian r.1, r.2, t.scatteringMode⟩, s.2)

/-- `DTree::pdf`: mode filtering returns 0, the empty/unweighted fallback
returns `1/(4π)`, otherwise the quad tree pdf of the cylindrical
coordinates of the query direction. -/
def DTree.pdf (t : DTree) (direction : ℚ × ℚ) (modes : ℕ) : ℚ :=
  if modes &&& t.scatteringMode.mask = 0 then 0
  else if t.previousSampleWeight ≤ 0 ∨ t.root.radianceSum ≤ 0 then RcpFourPi
  else t.root.pdf (cartesianToCylindrical direction)

/-- `DTree::halve_sample_weight`: the in-progress sample weight is
multiplied by one half. -/
def DTree.halveSampleWeight (t : DTree) : DTree :=
  { t with currentSampleWeight := (1/2) * t.currentSampleWeight }

/-- A node of the spatial binary tree (`STreeNode` in sdtree.cpp): either a
leaf owning one `DTree`, or an interior node with two children; `m_axis`
is the split axis. -/
inductive STreeNode where
  | leaf (axis : ℕ) (dTree : DTree)
  | node (axis : ℕ) (firstNode secondNode : STreeNode)
deriving Repr, DecidableEq

/-- The `STreeNode(parent_axis, parent_d_tree)` constructor: the child's
axis cycles to `(parent_axis + 1) % 3`, its `DTree` is copy-constructed
from the parent's (the copy constructor copies every field) and its
in-progress sample weight is halved. -/
def STreeNode.childNode (parentAxis : ℕ) (parentDTree : DTree) : STreeNode :=
  .leaf ((parentAxis + 1) % 3) parentDTree.halveSampleWeight

/-- `STreeNode::subdivide()` (the unconditional overload): a leaf is
replaced by an interior node whose two children are built through the
child constructor from the leaf's own `DTree`; interior nodes are left
unchanged. -/
def STreeNode.subdivideLeaf : STreeNode → STreeNode
  | .leaf axis dTree =>
    .node axis (STreeNode.childNode axis dTree) (STreeNode.childNode axis dTree)
  | t => t

/-- `foundation::lerp` (foundation/math/scalar.h, not under src/): the
affine interpolation `a + t·(b − a)`. -/
def lerp (a b t : ℚ) : ℚ := a + t * (b - a)

/-- `PathGuidedSampler::guided_path_extension_pdf`: when the SD-tree is
unbuilt, the BSDF is purely specular or path guiding is disabled, the
plain BSDF pdf passes through; otherwise the d-tree and product pdfs are
mixed by the product sampling fraction and the result is mixed with the
BSDF pdf by the BSDF sampling fraction. -/
def guidedPathExtensionPdf
    (sdTreeIsBuilt bsdfIsPurelySpecular enablePathGuiding : Bool)
    (bsdfPdf dTreePdf productPdf bsdfSamplingFraction productSamplingFraction : ℚ) :
    ℚ :=
  if sdTreeIsBuilt = false ∨ bsdfIsPurelySpecular = true ∨ enablePathGuiding = false then
    bsdfPdf
  else
    let guidedMixPdf := lerp dTreePdf productPdf productSamplingFraction
    lerp guidedMixPdf bsdfPdf bsdfSamplingFraction

/-- An RGBA colour (`Color4f`). -/
structure Color4 where
  r : ℚ
  g : ℚ
  b : ℚ
  a : ℚ
deriving Repr, DecidableEq, Inhabited

/-- `Color4f` multiplied by a scalar. -/
def Color4.scale (c : Color4) (k : ℚ) : Color4 := ⟨c.r * k, c.g * k, c.b * k, c.a * k⟩

/-- One pixel of the variance-tracking framebuffer: the filter-weight
channel, the main colour sum, one colour sum per AOV and the trailing
sum-of-squared-samples stripe. -/
structure VTPixel where
  weight : ℚ
  main : Color4
  aovs : List Color4
  squares : Color4
deriving Repr, DecidableEq, Inhabited

/-- The per-pixel body of
`VarianceTrackingShadingResultFrameBuffer::develop_to_tile`: the
reciprocal weight is defined as 0 for weight 0, the main colour and every
AOV are scaled by it, and the squared-samples stripe is skipped. -/
def developPixel (px : VTPixel) : Color4 × List Color4 :=
  let rcpWeight := if px.weight = 0 then 0 else 1 / px.weight
  (px.main.scale rcpWeight, px.aovs.map (fun aov => aov.scale rcpWeight))

/-- `VarianceTrackingShadingResultFrameBuffer::develop_to_tile` over the
row-major list of pixels. -/
def developToTile (buffer : List VTPixel) : List (Color4 × List Color4) :=
  buffer.map developPixel

/-- The constant `map_width` of `RadianceProxy::proxy_radiance` and the
block grid of the `RadianceProxy` constructor: the low-resolution proxy
map is 12 pixels wide (`m_resolution` is rounded down to a multiple of 12
and averaged into `12 × 12` blocks). -/
def ProxyMapWidth : ℕ := 12

/-- The `RadianceProxy` state of sdtree.cpp: the `12 × 12` block-averaged
low-resolution map `m_map`, the shared high-resolution map and its
resolution.  There is no per-pixel pointer back into the quad tree. -/
structure RadianceProxy where
  map : List ℚ
  highResMap : List ℚ
  resolution : ℕ
deriving Repr, DecidableEq

/-- `RadianceProxy::proxy_radiance`, taken at the square coordinate
produced by the (trigonometric, therefore abstracted) Clarberg equal-area
`sphere_to_square` map: scale by the map width, truncate, clamp to the
last pixel and read the low-resolution map row-major. -/
def RadianceProxy.proxyRadiance (p : RadianceProxy) (sq : ℚ × ℚ) : ℚ :=
  let px := min (Int.toNat ⌊sq.1 * (ProxyMapWidth : ℚ)⌋) (ProxyMapWidth - 1)
  let py := min (Int.toNat ⌊sq.2 * (ProxyMapWidth : ℚ)⌋) (ProxyMapWidth - 1)
  p.map.getD (py * ProxyMapWidth + px) 0

/-- `ImageBufferCapacity` from gptpasscallback.cpp. -/
def ImageBufferCapacity : ℕ := 4

/-- `GPTPassCallback::image_to_buffer`, tracking the stored inverse
variances (the stashed images themselves are external `Image` objects):
at capacity the oldest entry is popped before the new one is pushed. -/
def imageToBuffer (buffer : List ℚ) (inverseVariance : ℚ) : List ℚ :=
  let buffer' := if buffer.length = ImageBufferCapacity then buffer.drop 1 else buffer
  buffer' ++ [inverseVariance]

/-- The mutable counters of `GPTPassCallback`.
`lastExtrapolatedVariance = Option.none` models the initial value
`+∞` (`std::numeric_limits<float>::infinity()`); every comparison against
`+∞` with `>` is false. -/
structure GPTPassCallbackState where
  params : GPTParameters
  iter : ℕ
  maxPasses : ℕ
  passesRendered : ℕ
  passesLeftCurrIter : ℕ
  numPassesCurrIter : ℕ
  remainingPasses : ℕ
  lastExtrapolatedVariance : Option ℚ
  isFinalIter : Bool
  varIncrease : Bool
  inverseVarianceBuffer : List ℚ
deriving Repr, DecidableEq

/-- `current > m_last_extrapolated_variance`, with `none` standing for the
initial `+∞`. -/
def exceedsLast (current : ℚ) : Option ℚ → Bool
  | Option.none => false
  | some last => decide (last < current)

/-- `GPTPassCallback::on_pass_end`.  Counters are updated first; an
exhausted budget or a tripped abort switch finishes (stashing the image
inverse-variance when the progression is Combine); otherwise at an
iteration boundary the extrapolated variance
`variance · passes_in_curr_iter / (remaining + passes_in_curr_iter)` is
computed, the final iteration is initiated when progression is Automatic,
more than 256 samples were rendered and the value increased, the value is
recorded and `false` is returned.  The frame, job queue and logging are
external and carry no state read by the model; the framebuffer's variance
estimate enters as the `variance` argument. -/
def onPassEnd (s : GPTPassCallbackState) (variance : ℚ) (aborted : Bool) :
    Bool × GPTPassCallbackState :=
  let s₁ := { s with
    passesRendered := s.passesRendered + 1
    passesLeftCurrIter := s.passesLeftCurrIter - 1
    remainingPasses := s.remainingPasses - 1 }
  if s₁.maxPasses ≤ s₁.passesRendered ∨ aborted = true then
    let s₂ := if s₁.params.iterationProgression = .combine then
        { s₁ with inverseVarianceBuffer :=
          imageToBuffer s₁.inverseVarianceBuffer (1 / variance) }
      else s₁
    (true, s₂)
  else if s₁.passesLeftCurrIter = 0 then
    let remainingPassesAtCurrIterStart := s₁.remainingPasses + s₁.numPassesCurrIter
    let samplesRendered := s₁.passesRendered * s₁.params.samplesPerPass
    let currentExtrapolatedVariance :=
      variance * (s₁.numPassesCurrIter : ℚ) / (remainingPassesAtCurrIterStart : ℚ)
    let s₂ := if s₁.params.iterationProgression = .automatic ∧ 256 < samplesRendered ∧
        exceedsLast currentExtrapolatedVariance s₁.lastExtrapolatedVariance = true then
      { s₁ with varIncrease := true, isFinalIter := true }
      else s₁
    let s₃ := { s₂ with lastExtrapolatedVariance := some currentExtrapolatedVariance }
    let s₄ := if s₃.params.iterationProgression = .combine then
        { s₃ with inverseVarianceBuffer :=
          imageToBuffer s₃.inverseVarianceBuffer (1 / variance) }
      else s₃
    (false, s₄)
  else (false, s₁)

/-- A concrete configuration used by the concrete evaluations below. -/
def exampleParams : GPTParameters :=
  { bsdfSamplingFractionMode := .fixed
    fixedBsdfSamplingFraction := 1/2
    directionalFilter := .nearest
    spatialFilter := .nearest
    guidedBounceMode := .learn
    guidingMode := .pathGuiding
    iterationProgression := .automatic
    learningRate := 1/100
    samplesPerPass := 4 }

/-- A concrete built D-tree with a one-level quad tree of positive sums. -/
def exampleDTree : DTree :=
  { params := exampleParams
    root := .node 0 4 (.leaf 0 1) (.leaf 0 1) (.leaf 0 1) (.leaf 0 1)
    currentSampleWeight := 0
    previousSampleWeight := 1
    optimizationStepCount := 0
    firstMoment := 0
    secondMoment := 0
    theta := 0
    isBuilt := true
    scatteringMode := .diffuse }

/-- A concrete D-tree with zero previous sample weight. -/
def exampleEmptyDTree : DTree :=
  { exampleDTree with previousSampleWeight := 0 }

/-- A concrete delta record (scenario S2 of the specification: radiance 5
at the pole, `is_delta = true`). -/
def exampleDeltaRecord : DTreeRecord :=
  { direction := (1, 0)
    radiance := 5
    wiPdf := 1
    bsdfPdf := 1
    dTreePdf := 1
    sampleWeight := 1
    product := 0
    isDelta := true }

/-- Claim C1: for every D-tree whose previous-iteration state is frozen
with positive root radiance sum and positive previous sample weight, and
every uniform input `u ∈ [0,1)²`, the pdf `p` returned by `DTree::sample`
together with its sampled direction satisfies `DTree::pdf(direction) = p`
(exactly, in the idealised arithmetic): the descent in `sample` and the
symmetric descent in `pdf` accumulate the same factors
`4·child_sum/node_sum` and the leaf contributes `1/(4π)`. -/
theorem sample_pdf_consistency (t : DTree) (u : ℚ × ℚ) (rest : List ℚ)
    (modes : ℕ)
    (hw : 0 < t.previousSampleWeight) (hr : 0 < t.root.radianceSum)
    (hm : modes &&& t.scatteringMode.mask ≠ 0)
    (h1 : 0 ≤ u.1) (h2 : u.1 < 1) (h3 : 0 ≤ u.2) (h4 : u.2 < 1) :
    t.pdf ((t.sample (u.1 :: u.2 :: rest) modes).1.direction) modes =
      (t.sample (u.1 :: u.2 :: rest) modes).1.pdf := by
  have hcond : ¬ (t.previousSampleWeight ≤ 0 ∨ t.root.radianceSum ≤ 0) := by
    push_neg
    exact ⟨hw, hr⟩
  simp only [DTree.sample, DTree.pdf, nextTwo, if_neg hm, if_neg hcond,
    cylindricalToCartesian, cartesianToCylindrical, QuadTreeNode.sample]
  exact (sampleRec_consistent t.root (u.1, u.2) h1 h2 h3 h4).2.2.2.2

theorem sample_pdf_consistency_witness :
    0 < exampleDTree.previousSampleWeight ∧
    0 < exampleDTree.root.radianceSum ∧
    1 &&& exampleDTree.scatteringMode.mask ≠ 0 ∧
    exampleDTree.pdf ((exampleDTree.sample (1/3 :: 2/3 :: []) 1).1.direction) 1 =
      (exampleDTree.sample (1/3 :: 2/3 :: []) 1).1.pdf :=
  ⟨by norm_num [exampleDTree], by norm_num [exampleDTree, QuadTreeNode.radianceSum],
    by decide,
    sample_pdf_consistency exampleDTree (1/3, 2/3) [] 1
      (by norm_num [exampleDTree])
      (by norm_num [exampleDTree, QuadTreeNode.radianceSum]) (by decide)
      (by norm_num) (by norm_num) (by norm_num) (by norm_num)⟩

/-- Claim C2: after `QuadTreeNode::restructure` with `total` equal to the
root's previous-iteration sum (positive) and threshold `τ = 0.01`, every
leaf of the resulting tree satisfies `previous_sum / total ≤ τ` or has
depth 20; and a leaf whose fraction exceeds `τ` at depth `< 20` is split
into four new leaves, each inheriting one quarter of the parent's
previous-iteration sum, on which the criterion is enforced recursively. -/
theorem restructure_subdivision_criterion (t : QuadTreeNode) (total : ℚ)
    (htotal : total = t.radianceSum) (hpos : 0 < total) :
    ((t.restructure total DTreeThreshold 1).leavesOk total DTreeThreshold 1
      = true) ∧
    ∀ (c p : ℚ) (d : ℕ), DTreeThreshold < p / total → d < DTreeMaxDepth →
      (QuadTreeNode.leaf c p).restructure total DTreeThreshold d =
        QuadTreeNode.node 0 p
          ((QuadTreeNode.leaf ((1/4) * p) ((1/4) * p)).restructure total
            DTreeThreshold (d + 1))
          ((QuadTreeNode.leaf ((1/4) * p) ((1/4) * p)).restructure total
            DTreeThreshold (d + 1))
          ((QuadTreeNode.leaf ((1/4) * p) ((1/4) * p)).restructure total
            DTreeThreshold (d + 1))
          ((QuadTreeNode.leaf ((1/4) * p) ((1/4) * p)).restructure total
            DTreeThreshold (d + 1)) := by
  refine ⟨restructure_leavesOk total DTreeThreshold 1 t
    (by norm_num [DTreeMaxDepth]), ?_⟩
  intro c p d hf hd
  rw [QuadTreeNode.restructure, dif_pos (⟨hf, hd⟩ :
    DTreeThreshold < (QuadTreeNode.leaf c p).radianceSum / total ∧
      d < DTreeMaxDepth)]

theorem restructure_subdivision_criterion_witness :
    (1/50 : ℚ) = (QuadTreeNode.leaf (1/50) (1/50)).radianceSum ∧
    (0 : ℚ) < 1/50 ∧
    ((QuadTreeNode.leaf (1/50) (1/50)).restructure (1/50) DTreeThreshold
      1).leavesOk (1/50) DTreeThreshold 1 = true :=
  ⟨by norm_num [QuadTreeNode.radianceSum], by norm_num,
    (restructure_subdivision_criterion (QuadTreeNode.leaf (1/50) (1/50)) (1/50)
      (by norm_num [QuadTreeNode.radianceSum]) (by norm_num)).1⟩

/-- Claim C4: for every D-tree whose previous sample weight is
non-positive or whose root radiance sum is non-positive, and any modes
mask that permits the tree's scattering mode, `DTree::sample` returns the
uniform sphere direction for the drawn pair with pdf `1/(4π)` (mode
Diffuse), and `DTree::pdf` returns `1/(4π)` for every query direction. -/
theorem sample_uniform_fallback (t : DTree) (ctx : List ℚ) (modes : ℕ)
    (dir : ℚ × ℚ)
    (hfall : t.previousSampleWeight ≤ 0 ∨ t.root.radianceSum ≤ 0)
    (hm : modes &&& t.scatteringMode.mask ≠ 0) :
    (t.sample ctx modes).1.pdf = RcpFourPi ∧
    (t.sample ctx modes).1.direction = sampleSphereUniform (nextTwo ctx).1 ∧
    (t.sample ctx modes).1.scatteringMode = .diffuse ∧
    t.pdf dir modes = RcpFourPi := by
  simp [DTree.sample, DTree.pdf, if_neg hm, if_pos hfall]

theorem sample_uniform_fallback_witness :
    (exampleEmptyDTree.previousSampleWeight ≤ 0 ∨
      exampleEmptyDTree.root.radianceSum ≤ 0) ∧
    1 &&& exampleEmptyDTree.scatteringMode.mask ≠ 0 ∧
    ((exampleEmptyDTree.sample (1/3 :: 2/3 :: []) 1).1.pdf = RcpFourPi ∧
     (exampleEmptyDTree.sample (1/3 :: 2/3 :: []) 1).1.direction =
       sampleSphereUniform (nextTwo (1/3 :: 2/3 :: [])).1 ∧
     (exampleEmptyDTree.sample (1/3 :: 2/3 :: []) 1).1.scatteringMode =
       .diffuse ∧
     exampleEmptyDTree.pdf (1/2, 1/2) 1 = RcpFourPi) :=
  ⟨Or.inl (by norm_num [exampleEmptyDTree, exampleDTree]), by decide,
    sample_uniform_fallback exampleEmptyDTree (1/3 :: 2/3 :: []) 1 (1/2, 1/2)
      (Or.inl (by norm_num [exampleEmptyDTree, exampleDTree])) (by decide)⟩

/-- Claim C9: for every D-tree and every modes mask whose bitwise
intersection with the tree's scattering mode is empty, `DTree::sample`
returns scattering mode None with pdf 0 without consuming any random
numbers, and `DTree::pdf` returns 0 for every direction.  The tree is
arbitrary, so the filtering takes precedence over the uniform-sphere
fallback. -/
theorem sample_mode_filter (t : DTree) (ctx : List ℚ) (modes : ℕ)
    (dir : ℚ × ℚ)
    (hm : modes &&& t.scatteringMode.mask = 0) :
    (t.sample ctx modes).1.scatteringMode = .none ∧
    (t.sample ctx modes).1.pdf = 0 ∧
    (t.sample ctx modes).2 = ctx ∧
    t.pdf dir modes = 0 := by
  simp [DTree.sample, DTree.pdf, if_pos hm]

theorem sample_mode_filter_witness :
    2 &&& exampleEmptyDTree.scatteringMode.mask = 0 ∧
    ((exampleEmptyDTree.sample (1/3 :: 2/3 :: []) 2).1.scatteringMode =
      .none ∧
     (exampleEmptyDTree.sample (1/3 :: 2/3 :: []) 2).1.pdf = 0 ∧
     (exampleEmptyDTree.sample (1/3 :: 2/3 :: []) 2).2 = 1/3 :: 2/3 :: [] ∧
     exampleEmptyDTree.pdf (1/2, 1/2) 2 = 0) :=
  ⟨by decide,
    sample_mode_filter exampleEmptyDTree (1/3 :: 2/3 :: []) 2 (1/2, 1/2)
      (by decide)⟩

/-- Claim C5: for every record with `is_delta` true or `wi_pdf ≤ 0`,
`DTree::record` leaves the in-progress sample weight and the whole quad
tree (hence every node's `current_sum`) unchanged, as well as the frozen
weight, flags and configuration; and when the sampling-fraction mode is
not Learn, or the tree has never been built, or the record's product is
not positive, the state is completely unchanged (only the Adam state may
change otherwise). -/
theorem record_delta_invariance (t : DTree) (r : DTreeRecord)
    (h : r.isDelta = true ∨ r.wiPdf ≤ 0) :
    (t.record r).root = t.root ∧
    (t.record r).currentSampleWeight = t.currentSampleWeight ∧
    (t.record r).previousSampleWeight = t.previousSampleWeight ∧
    (t.record r).isBuilt = t.isBuilt ∧
    (t.record r).scatteringMode = t.scatteringMode ∧
    (t.record r).params = t.params ∧
    (¬ (t.params.bsdfSamplingFractionMode = .learn ∧ t.isBuilt = true ∧
        0 < r.product) →
      t.record r = t) := by
  simp only [DTree.record, if_pos h]
  split_ifs with hc
  · exact ⟨rfl, rfl, rfl, rfl, rfl, rfl, fun hnc => absurd hc hnc⟩
  · exact ⟨rfl, rfl, rfl, rfl, rfl, rfl, fun _ => rfl⟩

theorem record_delta_invariance_witness :
    (exampleDeltaRecord.isDelta = true ∨ exampleDeltaRecord.wiPdf ≤ 0) ∧
    ((exampleDTree.record exampleDeltaRecord).root = exampleDTree.root ∧
     (exampleDTree.record exampleDeltaRecord).currentSampleWeight =
       exampleDTree.currentSampleWeight ∧
     (exampleDTree.record exampleDeltaRecord).previousSampleWeight =
       exampleDTree.previousSampleWeight ∧
     (exampleDTree.record exampleDeltaRecord).isBuilt = exampleDTree.isBuilt ∧
     (exampleDTree.record exampleDeltaRecord).scatteringMode =
       exampleDTree.scatteringMode ∧
     (exampleDTree.record exampleDeltaRecord).params = exampleDTree.params ∧
     (¬ (exampleDTree.params.bsdfSamplingFractionMode = .learn ∧
         exampleDTree.isBuilt = true ∧ 0 < exampleDeltaRecord.product) →
       exampleDTree.record exampleDeltaRecord = exampleDTree)) :=
  ⟨Or.inl (by decide),
    record_delta_invariance exampleDTree exampleDeltaRecord (Or.inl (by decide))⟩

/-- Claim C3: whenever path guiding is enabled (the SD-tree is built, the
BSDF is not purely specular, and path guiding is not disabled), the
combined pdf returned by the guided sampler equals
`lerp(lerp(d_tree_pdf, product_pdf, product_fraction), bsdf_pdf,
bsdf_fraction)`; consequently at bsdf fraction 1 it equals the bsdf pdf,
at fractions (0,0) the d-tree pdf, at fractions (0,1) the product pdf,
and it is linear (affine) in each of the two fractions. -/
theorem guided_pdf_mixture (built spec enabled : Bool)
    (bsdfPdf dTreePdf productPdf a b : ℚ)
    (h1 : built = true) (h2 : spec = false) (h3 : enabled = true) :
    guidedPathExtensionPdf built spec enabled bsdfPdf dTreePdf productPdf a b =
      lerp (lerp dTreePdf productPdf b) bsdfPdf a ∧
    guidedPathExtensionPdf built spec enabled bsdfPdf dTreePdf productPdf 1 0 =
      bsdfPdf ∧
    guidedPathExtensionPdf built spec enabled bsdfPdf dTreePdf productPdf 0 0 =
      dTreePdf ∧
    guidedPathExtensionPdf built spec enabled bsdfPdf dTreePdf productPdf 0 1 =
      productPdf ∧
    (∀ x y w : ℚ,
      guidedPathExtensionPdf built spec enabled bsdfPdf dTreePdf productPdf
          (lerp x y w) b =
        lerp (guidedPathExtensionPdf built spec enabled bsdfPdf dTreePdf
            productPdf x b)
          (guidedPathExtensionPdf built spec enabled bsdfPdf dTreePdf
            productPdf y b) w) ∧
    (∀ x y w : ℚ,
      guidedPathExtensionPdf built spec enabled bsdfPdf dTreePdf productPdf a
          (lerp x y w) =
        lerp (guidedPathExtensionPdf built spec enabled bsdfPdf dTreePdf
            productPdf a x)
          (guidedPathExtensionPdf built spec enabled bsdfPdf dTreePdf
            productPdf a y) w) := by
  subst h1 h2 h3
  have hguard : ¬ (true = false ∨ false = true ∨ true = false) := by simp
  simp only [guidedPathExtensionPdf, if_neg hguard, lerp]
  exact ⟨trivial, by ring, by ring, by ring, fun x y w => by ring,
    fun x y w => by ring⟩

theorem guided_pdf_mixture_witness :
    true = true ∧ false = false ∧ true = true ∧
    guidedPathExtensionPdf true false true 3 5 7 (1/4) (1/3) =
      lerp (lerp 5 7 (1/3)) 3 (1/4) :=
  ⟨rfl, rfl, rfl,
    (guided_pdf_mixture true false true 3 5 7 (1/4) (1/3) rfl rfl rfl).1⟩

/-- Claim C6: when an S-tree leaf subdivides, each child node's D-tree is
copy-constructed from the parent's D-tree (every field copied) and the
child's in-progress sample weight equals exactly half the parent's
pre-split sample weight, once per child; every other field, including the
quad tree and Adam state, is inherited unchanged. -/
theorem stree_split_halves_weight (axis : ℕ) (t : DTree) :
    STreeNode.subdivideLeaf (.leaf axis t) =
      .node axis (.leaf ((axis + 1) % 3) t.halveSampleWeight)
        (.leaf ((axis + 1) % 3) t.halveSampleWeight) ∧
    t.halveSampleWeight.currentSampleWeight = (1/2) * t.currentSampleWeight ∧
    t.halveSampleWeight.root = t.root ∧
    t.halveSampleWeight.previousSampleWeight = t.previousSampleWeight ∧
    t.halveSampleWeight.theta = t.theta ∧
    t.halveSampleWeight.firstMoment = t.firstMoment ∧
    t.halveSampleWeight.secondMoment = t.secondMoment ∧
    t.halveSampleWeight.optimizationStepCount = t.optimizationStepCount ∧
    t.halveSampleWeight.isBuilt = t.isBuilt ∧
    t.halveSampleWeight.scatteringMode = t.scatteringMode :=
  ⟨rfl, rfl, rfl, rfl, rfl, rfl, rfl, rfl, rfl, rfl⟩

/-- Claim C10: for every pixel of the variance-tracking framebuffer whose
accumulated weight channel is 0, `develop_to_tile` writes colour
(0,0,0,0) for the main image and for every AOV: the reciprocal weight is
defined as 0 when the weight is 0, so no division by zero occurs. -/
theorem develop_zero_weight (buffer : List VTPixel) (i : ℕ)
    (hi : i < buffer.length)
    (hw : (buffer.getD i default).weight = 0) :
    ((developToTile buffer).getD i default).1 = ⟨0, 0, 0, 0⟩ ∧
    ∀ c ∈ ((developToTile buffer).getD i default).2, c = ⟨0, 0, 0, 0⟩ := by
  have hmap : (developToTile buffer).getD i default =
      developPixel (buffer.getD i default) := by
    unfold developToTile
    rw [List.getD_eq_getElem _ _ (by simpa using hi), List.getElem_map,
      List.getD_eq_getElem _ _ hi]
  rw [hmap]
  simp only [developPixel, if_pos hw]
  constructor
  · simp [Color4.scale]
  · intro c hc
    simp only [List.mem_map] at hc
    obtain ⟨aov, _, rfl⟩ := hc
    simp [Color4.scale]

/-- A concrete pixel that received no samples. -/
def exampleZeroWeightPixel : VTPixel :=
  { weight := 0
    main := ⟨1, 2, 3, 4⟩
    aovs := [⟨5, 6, 7, 8⟩]
    squares := ⟨1, 4, 9, 16⟩ }

theorem develop_zero_weight_witness :
    0 < [exampleZeroWeightPixel].length ∧
    ([exampleZeroWeightPixel].getD 0 default).weight = 0 ∧
    (((developToTile [exampleZeroWeightPixel]).getD 0 default).1 =
        ⟨0, 0, 0, 0⟩ ∧
      ∀ c ∈ ((developToTile [exampleZeroWeightPixel]).getD 0 default).2,
        c = ⟨0, 0, 0, 0⟩) :=
  ⟨by decide, rfl,
    develop_zero_weight [exampleZeroWeightPixel] 0 (by decide) rfl⟩

/-- Claim C8 counterexample: the low-resolution radiance map of
`RadianceProxy` is 12 pixels wide in the source (`map_width = 12`, blocks
of `m_resolution / 12`), not 16 as the claim states. -/
theorem proxy_width_not_sixteen : ¬ (ProxyMapWidth = 16) := by decide

/-- Claim C8 (amended): the `RadianceProxy` low-resolution radiance map is
a 12 × 12 float map read row-major through the (equal-area square)
parameterisation with both pixel coordinates clamped below 12; the
structure carries no per-pixel back-pointer into the quad tree. -/
theorem proxy_map_layout (p : RadianceProxy) (sq : ℚ × ℚ) :
    ProxyMapWidth = 12 ∧
    ∃ px py : ℕ, px < ProxyMapWidth ∧ py < ProxyMapWidth ∧
      p.proxyRadiance sq = p.map.getD (py * ProxyMapWidth + px) 0 :=
  ⟨rfl,
    min (Int.toNat ⌊sq.1 * (ProxyMapWidth : ℚ)⌋) (ProxyMapWidth - 1),
    min (Int.toNat ⌊sq.2 * (ProxyMapWidth : ℚ)⌋) (ProxyMapWidth - 1),
    lt_of_le_of_lt (Nat.min_le_right _ _) (by norm_num [ProxyMapWidth]),
    lt_of_le_of_lt (Nat.min_le_right _ _) (by norm_num [ProxyMapWidth]),
    rfl⟩

/-- Claim C7: at every iteration boundary (`passes_left_curr_iter`
reaches 0) that does not exhaust the pass budget, `on_pass_end` computes
`extrapolated_variance = variance · passes_in_curr_iter /
(remaining_passes + passes_in_curr_iter)` (with `remaining_passes`
already decremented); it sets `var_increase` and `is_final_iter` to true
precisely when iteration progression is Automatic, more than 256 samples
have been rendered, and the new value strictly exceeds the previous
extrapolated variance (leaving both untouched otherwise); it stores the
value as `last_extrapolated_variance`; and it returns `finished = false`. -/
theorem on_pass_end_iteration_boundary (s : GPTPassCallbackState)
    (variance : ℚ)
    (hleft : s.passesLeftCurrIter = 1)
    (hbudget : s.passesRendered + 1 < s.maxPasses)
    (hrem : 1 ≤ s.remainingPasses) :
    (onPassEnd s variance false).1 = false ∧
    (onPassEnd s variance false).2.lastExtrapolatedVariance =
      some (variance * (s.numPassesCurrIter : ℚ) /
        ((s.remainingPasses - 1 + s.numPassesCurrIter : ℕ) : ℚ)) ∧
    ((s.params.iterationProgression = .automatic ∧
        256 < (s.passesRendered + 1) * s.params.samplesPerPass ∧
        exceedsLast (variance * (s.numPassesCurrIter : ℚ) /
            ((s.remainingPasses - 1 + s.numPassesCurrIter : ℕ) : ℚ))
          s.lastExtrapolatedVariance = true) →
      (onPassEnd s variance false).2.varIncrease = true ∧
      (onPassEnd s variance false).2.isFinalIter = true) ∧
    (¬ (s.params.iterationProgression = .automatic ∧
        256 < (s.passesRendered + 1) * s.params.samplesPerPass ∧
        exceedsLast (variance * (s.numPassesCurrIter : ℚ) /
            ((s.remainingPasses - 1 + s.numPassesCurrIter : ℕ) : ℚ))
          s.lastExtrapolatedVariance = true) →
      (onPassEnd s variance false).2.varIncrease = s.varIncrease ∧
      (onPassEnd s variance false).2.isFinalIter = s.isFinalIter) := by
  have hnotfin : ¬ (s.maxPasses ≤ s.passesRendered + 1 ∨ (false : Bool) = true) := by
    push_neg
    exact ⟨hbudget, by simp⟩
  simp only [onPassEnd, hleft, if_neg hnotfin]
  norm_num
  split_ifs with hc hcombine hcombine <;> simp_all

/-- A concrete pass-callback state one pass before an iteration boundary. -/
def examplePassState : GPTPassCallbackState :=
  { params := exampleParams
    iter := 3
    maxPasses := 32
    passesRendered := 6
    passesLeftCurrIter := 1
    numPassesCurrIter := 4
    remainingPasses := 25
    lastExtrapolatedVariance := some 10
    isFinalIter := false
    varIncrease := false
    inverseVarianceBuffer := [] }

theorem on_pass_end_iteration_boundary_witness :
    examplePassState.passesLeftCurrIter = 1 ∧
    examplePassState.passesRendered + 1 < examplePassState.maxPasses ∧
    1 ≤ examplePassState.remainingPasses ∧
    (onPassEnd examplePassState 2 false).1 = false :=
  ⟨rfl, by decide, by decide,
    (on_pass_end_iteration_boundary examplePassState 2 rfl (by decide)
      (by decide)).1⟩

end SDTree
